import Mathlib

/-!
Shallow embedding of the status-resolution pipeline of `bot.py`
(permit-status Telegram bot).  The pure core is translated directly:
`check_permit_status` (classification of the fetched page plus its
diagnostic logging), `build_result_message`, `normalize_permit_code`,
`is_permit_code`, and the free-text branch of `handle_message`.
The network transport is abstracted as a `FetchOutcome` value
(either a raised request exception or an HTTP response), matching
how `requests.get` / `Response.raise_for_status` behave.
-/

namespace PermitBot

/-! ### Python string primitives, modelled over `List Char`

The Python code manipulates `str` values with `.strip()`, `.upper()`,
`.lower()`, the `in` substring test and anchored regular expressions.
They are modelled here on the underlying character lists.  The models
cover the ASCII range faithfully; Python additionally treats a few
Unicode-only code points (exotic spaces, non-ASCII digits and case
mappings) specially, none of which can occur in the alphanumeric
permit codes and fixed Italian tokens this program inspects. -/

/-- ASCII whitespace stripped by Python `str.strip()`:
space (32) and the control characters 9–13 (tab, LF, VT, FF, CR). -/
def pyIsSpace (c : Char) : Bool :=
  c.toNat == 32 || (9 ≤ c.toNat && c.toNat ≤ 13)

/-- Model of Python `str.strip()` on a character list: drop whitespace
from the front, then from the back (via reversal). -/
def stripList (l : List Char) : List Char :=
  ((l.dropWhile pyIsSpace).reverse.dropWhile pyIsSpace).reverse

/-- Model of Python `str.strip()`. -/
def pyStrip (s : String) : String := ⟨stripList s.data⟩

/-- Model of Python `str.upper()` (ASCII case mapping). -/
def pyUpper (s : String) : String := ⟨s.data.map Char.toUpper⟩

/-- Model of Python `str.lower()` (ASCII case mapping). -/
def pyLower (s : String) : String := ⟨s.data.map Char.toLower⟩

/-- Model of the Python substring test `needle in hay` on character
lists: the needle is a prefix of some suffix of the haystack. -/
def containsList (needle : List Char) : List Char → Bool
  | [] => needle.isEmpty
  | c :: rest => needle.isPrefixOf (c :: rest) || containsList needle rest

/-- Model of the Python substring test `needle in hay` on strings. -/
def containsSubstr (needle hay : String) : Bool :=
  containsList needle.data hay.data

/-- Model of `re.match` for a fully anchored character-class repetition
`^[class]\x7blo,hi\x7d$`: consume characters of the class one by one,
decrementing both bounds, and accept exactly when the whole input is
consumed with the lower bound exhausted and the upper bound not
overrun.  (Greedy versus lazy repetition is irrelevant for a single
class anchored on both sides.) -/
def matchRep (p : Char → Bool) : Nat → Nat → List Char → Bool
  | lo, _, [] => lo == 0
  | lo, hi, c :: cs => hi != 0 && p c && matchRep p (lo - 1) (hi - 1) cs

/-- The regex class `\d` (ASCII decimal digit `0`–`9`). -/
def isDigitChar (c : Char) : Bool :=
  48 ≤ c.toNat && c.toNat ≤ 57

/-- The regex class `[A-Za-z0-9]`. -/
def isAlnumChar (c : Char) : Bool :=
  (65 ≤ c.toNat && c.toNat ≤ 90) || (97 ≤ c.toNat && c.toNat ≤ 122) ||
    (48 ≤ c.toNat && c.toNat ≤ 57)

/-- Model of Python `str.zfill(width)` for an unsigned decimal numeral
(the only use in the source is `str(year % 100).zfill(2)`, so the
sign handling of `zfill` never triggers and is omitted). -/
def zfill (width : Nat) (s : String) : String :=
  if width ≤ s.length then s else ⟨List.replicate (width - s.length) '0' ++ s.data⟩

/-- The `str(datetime.now().year % 100).zfill(2)` value computed in
`normalize_permit_code`; the current year is passed explicitly. -/
def twoDigitYear (year : Nat) : String :=
  zfill 2 (Nat.repr (year % 100))

/-- A separator line `c * 28` as built by the Python f-strings. -/
def sepLine (c : Char) : String := ⟨List.replicate 28 c⟩

/-! ### Data model -/

/-- The structured result dict returned by `check_permit_status`
(keys `status`, `title`, `description`, `emoji`). -/
structure CheckResult where
  status : String
  title : String
  description : String
  emoji : String
deriving DecidableEq

/-- One record emitted through the module logger. -/
structure LogEntry where
  level : String
  message : String
deriving DecidableEq

/-- Outcome of the single outbound `requests.get` call:
either the request raised a `RequestException` (connection error,
timeout, …) with the exception text, or an HTTP response arrived,
carrying its status code, reason phrase, final URL and body text. -/
inductive FetchOutcome where
  | failure (reason : String)
  | response (statusCode : Nat) (reasonPhrase : String) (url : String) (text : String)
deriving DecidableEq

/-- `requests.Response.raise_for_status` raises `HTTPError` exactly for
status codes 400–599 (4xx client errors and 5xx server errors);
1xx/2xx/3xx codes pass through. -/
def raiseForStatusFails (sc : Nat) : Bool :=
  400 ≤ sc && sc < 600

/-- The `HTTPError` message built by `requests.Response.raise_for_status`:
`"(code) Client Error: (reason) for url: (url)"` for 4xx and
`"(code) Server Error: (reason) for url: (url)"` for 5xx. -/
def httpErrorMessage (sc : Nat) (reasonPhrase url : String) : String :=
  (if sc < 500 then Nat.repr sc ++ " Client Error: " else Nat.repr sc ++ " Server Error: ")
    ++ reasonPhrase ++ " for url: " ++ url

/-- The diagnostic record of
`logger.error("Request failed for %s: %s", permit_code, exc)`. -/
def requestFailedLog (permit_code excMsg : String) : LogEntry :=
  ⟨"error", "Request failed for " ++ permit_code ++ ": " ++ excMsg⟩

/-- The `status="ready"` dict of `check_permit_status`. -/
def readyResult : CheckResult :=
  { status := "ready"
    title := "Ready for Pickup!"
    description := "Your permit is <b>ready</b>!\nYou can now book an appointment to pick it up\nat your local Questura office."
    emoji := "✅" }

/-- The `status="processing"` dict of `check_permit_status`. -/
def processingResult : CheckResult :=
  { status := "processing"
    title := "Being Processed"
    description := "Your application is currently <b>being processed</b>.\nThe Questura has started working on your permit.\nPlease check back later for updates."
    emoji := "⏳" }

/-- The `status="unknown"` dict of `check_permit_status`. -/
def unknownResult : CheckResult :=
  { status := "unknown"
    title := "Not Yet Started"
    description := "No information is available for this permit code.\nProcessing has <b>not started yet</b>, or the code\nmay be incorrect. Double-check and try again."
    emoji := "❌" }

/-- The `status="error"` dict of `check_permit_status`. -/
def errorResult : CheckResult :=
  { status := "error"
    title := "Connection Error"
    description := "Could not reach the Polizia di Stato server.\nPlease try again in a few minutes."
    emoji := "⚠️" }

/-- Translation of `check_permit_status`.  The network effect is the
explicit `FetchOutcome` argument; the second component collects the
diagnostic log records the call emits.  A raised request exception or
a `raise_for_status` failure lands in the `except` branch; otherwise
the lower-cased body is classified by ordered substring matching. -/
def check_permit_status (permit_code : String) (outcome : FetchOutcome) :
    CheckResult × List LogEntry :=
  match outcome with
  | .failure reason => (errorResult, [requestFailedLog permit_code reason])
  | .response sc reasonPhrase url text =>
    if raiseForStatusFails sc then
      (errorResult, [requestFailedLog permit_code (httpErrorMessage sc reasonPhrase url)])
    else
      let body := pyLower text
      if containsSubstr "la consegna" body then (readyResult, [])
      else if containsSubstr "in trattazione" body then (processingResult, [])
      else (unknownResult, [])

/-- The `STATUS_COLORS` dict, as an association list. -/
def STATUS_COLORS : List (String × String) :=
  [("ready", "🟢"), ("processing", "🟡"), ("unknown", "🔴"), ("error", "⚠️")]

/-- The `STATUS_COLORS.get(result["status"], "❓")` lookup performed by
`build_result_message`. -/
def statusDot (status : String) : String :=
  (List.lookup status STATUS_COLORS).getD "❓"

/-- The f-string template of `build_result_message`, with the status
dot already resolved. -/
def renderBlock (permit_code : String) (result : CheckResult) (dot : String) : String :=
  sepLine '=' ++ "\n" ++ result.emoji ++ "  <b>" ++ result.title ++ "</b>\n"
    ++ sepLine '=' ++ "\n\n"
    ++ "📄  <b>Permit Code:</b>  <code>" ++ permit_code ++ "</code>\n"
    ++ dot ++ "  <b>Status:</b>  " ++ result.title ++ "\n\n"
    ++ result.description ++ "\n\n"
    ++ sepLine '─'

/-- Translation of `build_result_message`. -/
def build_result_message (permit_code : String) (result : CheckResult) : String :=
  renderBlock permit_code result (statusDot result.status)

/-- Translation of `normalize_permit_code`: strip and upper-case, then
prepend the current two-digit year when the result is exactly six
digits (`re.match` against an anchored `\d` sextet). -/
def normalize_permit_code (year : Nat) (raw : String) : String :=
  let code := pyUpper (pyStrip raw)
  if matchRep isDigitChar 6 6 code.data then twoDigitYear year ++ code else code

/-- Translation of `is_permit_code`: the stripped text must match the
anchored regex `[A-Za-z0-9]` repeated 6 to 20 times. -/
def is_permit_code (text : String) : Bool :=
  matchRep isAlnumChar 6 20 (pyStrip text).data

/-- The format-guidance rejection reply of `handle_message`. -/
def rejectionMessage : String :=
  "🤔  That doesn\u0027t look like a permit code.\n\nSend a <b>6-digit</b> or <b>10-character</b> alphanumeric code,\nor tap /start to see the menu."

/-- The interim placeholder reply of `handle_message`. -/
def checkingMessage : String :=
  "⏳  <i>Checking your permit status, please wait…</i>"

/-- What the free-text handler does with one message: either it
rejects the text locally, or it normalizes the code, issues the one
network call and edits the placeholder into the final block. -/
inductive RouterAction where
  | rejected (msg : String)
  | resolved (normalizedCode : String) (placeholder : String) (finalReply : String)
deriving DecidableEq

/-- Translation of the free-text branch of `handle_message`.  The
transport is abstracted as `fetch`, giving the `FetchOutcome` of the
single query issued for a code; `year` is the current year read by
`normalize_permit_code`. -/
def handle_message (year : Nat) (fetch : String → FetchOutcome) (raw : String) :
    RouterAction :=
  let text := pyStrip raw
  if !is_permit_code text then .rejected rejectionMessage
  else
    let permit_code := normalize_permit_code year text
    let result := (check_permit_status permit_code (fetch permit_code)).1
    .resolved permit_code checkingMessage (build_result_message permit_code result)

/-- Number of outbound network calls an action performed: the rejection
branch returns before `check_permit_status` is ever reached, the
resolution branch issues exactly the one query. -/
def networkCalls : RouterAction → Nat
  | .rejected _ => 0
  | .resolved _ _ _ => 1

/-- Dropping trailing elements satisfying `p` (the second half of
`stripList`, factored out for the proofs below). -/
def dropEnd (p : Char → Bool) (l : List Char) : List Char :=
  (l.reverse.dropWhile p).reverse

/-! ### Helper lemmas -/

theorem stripList_eq_dropEnd (l : List Char) :
    stripList l = dropEnd pyIsSpace (l.dropWhile pyIsSpace) := rfl

theorem matchRep_eq_true_iff (p : Char → Bool) (lo hi : Nat) (l : List Char) :
    matchRep p lo hi l = true ↔
      lo ≤ l.length ∧ l.length ≤ hi ∧ ∀ c ∈ l, p c = true := by
  induction l generalizing lo hi with
  | nil =>
    show (lo == 0) = true ↔ _
    simp [Nat.le_zero]
  | cons c cs ih =>
    simp only [matchRep, Bool.and_eq_true, bne_iff_ne, ne_eq, ih, List.length_cons,
      List.mem_cons, forall_eq_or_imp]
    constructor
    · rintro ⟨⟨hhi, hc⟩, h1, h2, h3⟩
      exact ⟨by omega, by omega, hc, h3⟩
    · rintro ⟨h1, h2, hc, h3⟩
      exact ⟨⟨by omega, hc⟩, by omega, by omega, h3⟩

theorem containsList_iff (needle hay : List Char) :
    containsList needle hay = true ↔ needle <:+: hay := by
  induction hay with
  | nil => simp [containsList, List.isEmpty_iff]
  | cons c rest ih =>
    simp [containsList, ih, List.infix_cons_iff]

theorem containsSubstr_iff (needle hay : String) :
    containsSubstr needle hay = true ↔ needle.data <:+: hay.data :=
  containsList_iff needle.data hay.data

theorem containsSubstr_middle (a b c : String) :
    containsSubstr b (a ++ b ++ c) = true := by
  rw [containsSubstr_iff]
  simp only [String.data_append]
  exact List.infix_append _ _ _

theorem toNat_ofNat_of_lt (n : Nat) (h : n < 55296) : (Char.ofNat n).toNat = n := by
  have hv : n.isValidChar := Or.inl h
  rw [Char.ofNat, dif_pos hv]
  rfl

theorem toNat_toUpper (c : Char) :
    (Char.toUpper c).toNat =
      if c.toNat ≥ 97 ∧ c.toNat ≤ 122 then c.toNat - 32 else c.toNat := by
  show (if c.toNat ≥ 97 ∧ c.toNat ≤ 122 then Char.ofNat (c.toNat - 32) else c).toNat = _
  by_cases h : c.toNat ≥ 97 ∧ c.toNat ≤ 122
  · rw [if_pos h, if_pos h, toNat_ofNat_of_lt _ (by omega)]
  · rw [if_neg h, if_neg h]

theorem toUpper_of_not_lower (c : Char) (h : ¬(c.toNat ≥ 97 ∧ c.toNat ≤ 122)) :
    Char.toUpper c = c := by
  show (if c.toNat ≥ 97 ∧ c.toNat ≤ 122 then Char.ofNat (c.toNat - 32) else c) = c
  rw [if_neg h]

theorem toUpper_toUpper (c : Char) :
    Char.toUpper (Char.toUpper c) = Char.toUpper c := by
  apply toUpper_of_not_lower
  rw [toNat_toUpper]
  by_cases h : c.toNat ≥ 97 ∧ c.toNat ≤ 122
  · rw [if_pos h]; omega
  · rw [if_neg h]; exact h

theorem pyIsSpace_toUpper (c : Char) :
    pyIsSpace (Char.toUpper c) = pyIsSpace c := by
  rw [Bool.eq_iff_iff]
  simp only [pyIsSpace, Bool.or_eq_true, Bool.and_eq_true, beq_iff_eq,
    decide_eq_true_eq, toNat_toUpper]
  by_cases h : c.toNat ≥ 97 ∧ c.toNat ≤ 122
  · rw [if_pos h]; omega
  · rw [if_neg h]

theorem isDigitChar_toUpper (c : Char) :
    isDigitChar (Char.toUpper c) = isDigitChar c := by
  rw [Bool.eq_iff_iff]
  simp only [isDigitChar, Bool.and_eq_true, decide_eq_true_eq, toNat_toUpper]
  by_cases h : c.toNat ≥ 97 ∧ c.toNat ≤ 122
  · rw [if_pos h]; omega
  · rw [if_neg h]

theorem toUpper_of_digit (c : Char) (h : isDigitChar c = true) :
    Char.toUpper c = c := by
  apply toUpper_of_not_lower
  simp only [isDigitChar, Bool.and_eq_true, decide_eq_true_eq] at h
  omega

theorem digit_not_space (c : Char) (h : isDigitChar c = true) :
    pyIsSpace c = false := by
  simp only [isDigitChar, Bool.and_eq_true, decide_eq_true_eq] at h
  simp only [pyIsSpace, Bool.or_eq_false_iff, Bool.and_eq_false_iff]
  constructor
  · simp only [beq_eq_false_iff_ne, ne_eq]; omega
  · right; simp only [decide_eq_false_iff_not]; omega

theorem alnum_not_space (c : Char) (h : isAlnumChar c = true) :
    pyIsSpace c = false := by
  simp only [isAlnumChar, Bool.or_eq_true, Bool.and_eq_true, decide_eq_true_eq] at h
  simp only [pyIsSpace, Bool.or_eq_false_iff, Bool.and_eq_false_iff]
  constructor
  · simp only [beq_eq_false_iff_ne, ne_eq]; omega
  · right; simp only [decide_eq_false_iff_not]; omega

theorem dropWhile_head_not (p : Char → Bool) (l : List Char) :
    ∀ a as, l.dropWhile p = a :: as → p a = false := by
  induction l with
  | nil => intro a as h; simp [List.dropWhile] at h
  | cons c cs ih =>
    intro a as h
    by_cases hc : p c
    · rw [List.dropWhile_cons_of_pos hc] at h
      exact ih a as h
    · rw [List.dropWhile_cons_of_neg hc] at h
      cases h
      exact Bool.eq_false_iff.mpr hc

theorem dropWhile_dropWhile (p : Char → Bool) (l : List Char) :
    (l.dropWhile p).dropWhile p = l.dropWhile p := by
  induction l with
  | nil => rfl
  | cons a l ih =>
    by_cases h : p a
    · rw [List.dropWhile_cons_of_pos h]; exact ih
    · rw [List.dropWhile_cons_of_neg h, List.dropWhile_cons_of_neg h]

theorem dropWhile_eq_self_of_all (p : Char → Bool) (l : List Char)
    (h : ∀ c ∈ l, p c = false) : l.dropWhile p = l := by
  cases l with
  | nil => rfl
  | cons a l =>
    exact List.dropWhile_cons_of_neg
      (by rw [h a (List.mem_cons_self a l)]; exact Bool.false_ne_true)

theorem dropEnd_dropEnd (p : Char → Bool) (l : List Char) :
    dropEnd p (dropEnd p l) = dropEnd p l := by
  unfold dropEnd
  rw [List.reverse_reverse, dropWhile_dropWhile]

theorem dropEnd_prefix (p : Char → Bool) (l : List Char) :
    dropEnd p l <+: l := by
  have h := List.dropWhile_suffix (l := l.reverse) p
  have h2 := List.reverse_prefix.mpr h
  rwa [List.reverse_reverse] at h2

theorem dropWhile_dropEnd_clean (p : Char → Bool) (l : List Char) :
    (dropEnd p (l.dropWhile p)).dropWhile p = dropEnd p (l.dropWhile p) := by
  rcases h : dropEnd p (l.dropWhile p) with _ | ⟨b, bs⟩
  · rfl
  · have hpre : dropEnd p (l.dropWhile p) <+: l.dropWhile p := dropEnd_prefix p _
    rw [h] at hpre
    obtain ⟨t, ht⟩ := hpre
    have hb : p b = false := by
      apply dropWhile_head_not p l b (bs ++ t)
      rw [← ht]; simp
    exact List.dropWhile_cons_of_neg (by rw [hb]; exact Bool.false_ne_true)

theorem stripList_idem (l : List Char) :
    stripList (stripList l) = stripList l := by
  rw [stripList_eq_dropEnd, stripList_eq_dropEnd,
    dropWhile_dropEnd_clean, dropEnd_dropEnd, ← stripList_eq_dropEnd]

theorem stripList_of_no_space (l : List Char)
    (h : ∀ c ∈ l, pyIsSpace c = false) : stripList l = l := by
  unfold stripList
  rw [dropWhile_eq_self_of_all _ _ h,
    dropWhile_eq_self_of_all _ _ (by intro c hc; exact h c (List.mem_reverse.mp hc)),
    List.reverse_reverse]

theorem stripList_map_toUpper (l : List Char) :
    stripList (l.map Char.toUpper) = (stripList l).map Char.toUpper := by
  have hcomp : ∀ m : List Char,
      (m.map Char.toUpper).dropWhile pyIsSpace =
        (m.dropWhile pyIsSpace).map Char.toUpper := by
    intro m
    have hp : (pyIsSpace ∘ Char.toUpper) = pyIsSpace := funext pyIsSpace_toUpper
    rw [List.dropWhile_map, hp]
  unfold stripList
  rw [hcomp, ← List.map_reverse, hcomp, ← List.map_reverse]

theorem length_data (s : String) : s.length = s.data.length := rfl

theorem pyStrip_data (s : String) : (pyStrip s).data = stripList s.data := rfl

theorem pyUpper_data (s : String) : (pyUpper s).data = s.data.map Char.toUpper := rfl

theorem pyStrip_pyStrip (s : String) : pyStrip (pyStrip s) = pyStrip s :=
  String.ext (stripList_idem s.data)

theorem pyStrip_pyUpper (s : String) : pyStrip (pyUpper s) = pyUpper (pyStrip s) :=
  String.ext (stripList_map_toUpper s.data)

theorem pyUpper_pyUpper (s : String) : pyUpper (pyUpper s) = pyUpper s :=
  String.ext (by
    show (s.data.map Char.toUpper).map Char.toUpper = s.data.map Char.toUpper
    rw [List.map_map]
    exact List.map_congr_left fun c _ => toUpper_toUpper c)

theorem pyStrip_of_no_space (t : String) (h : ∀ c ∈ t.data, pyIsSpace c = false) :
    pyStrip t = t :=
  String.ext (by rw [pyStrip_data]; exact stripList_of_no_space t.data h)

theorem pyUpper_of_digits (t : String) (h : ∀ c ∈ t.data, isDigitChar c = true) :
    pyUpper t = t :=
  String.ext (by
    rw [pyUpper_data]
    calc t.data.map Char.toUpper
        = t.data.map id := List.map_congr_left fun c hc => toUpper_of_digit c (h c hc)
      _ = t.data := List.map_id t.data)

theorem is_permit_code_strip (raw : String) :
    is_permit_code (pyStrip raw) = is_permit_code raw := by
  unfold is_permit_code
  rw [pyStrip_pyStrip]

theorem twoDigit_bdd : ∀ n < 100, (zfill 2 (Nat.repr n)).length = 2 ∧
    ∀ c ∈ (zfill 2 (Nat.repr n)).data, isDigitChar c = true := by decide

theorem twoDigitYear_length (year : Nat) : (twoDigitYear year).length = 2 :=
  (twoDigit_bdd (year % 100) (Nat.mod_lt year (by omega))).1

theorem twoDigitYear_digits (year : Nat) :
    ∀ c ∈ (twoDigitYear year).data, isDigitChar c = true :=
  (twoDigit_bdd (year % 100) (Nat.mod_lt year (by omega))).2

theorem matchRep_false_of_length (p : Char → Bool) (lo hi : Nat) (l : List Char)
    (h : hi < l.length) : matchRep p lo hi l = false := by
  rw [Bool.eq_false_iff]
  intro hx
  have := (matchRep_eq_true_iff p lo hi l).mp hx
  omega

theorem matchRep_digit_map_toUpper (lo hi : Nat) (l : List Char) :
    matchRep isDigitChar lo hi (l.map Char.toUpper) = matchRep isDigitChar lo hi l := by
  rw [Bool.eq_iff_iff, matchRep_eq_true_iff, matchRep_eq_true_iff, List.length_map]
  constructor
  · rintro ⟨h1, h2, h3⟩
    refine ⟨h1, h2, fun c hc => ?_⟩
    have := h3 (Char.toUpper c) (List.mem_map_of_mem _ hc)
    rwa [isDigitChar_toUpper] at this
  · rintro ⟨h1, h2, h3⟩
    refine ⟨h1, h2, fun c hc => ?_⟩
    obtain ⟨a, ha, rfl⟩ := List.mem_map.mp hc
    rw [isDigitChar_toUpper]
    exact h3 a ha

theorem normalize_fixed_of_digits (year : Nat) (t : String)
    (hdig : ∀ c ∈ t.data, isDigitChar c = true) (hlen : 6 < t.data.length) :
    normalize_permit_code year t = t := by
  have hstrip : pyStrip t = t := pyStrip_of_no_space t fun c hc => digit_not_space c (hdig c hc)
  have hupper : pyUpper t = t := pyUpper_of_digits t hdig
  unfold normalize_permit_code
  rw [hstrip, hupper,
    if_neg (by rw [matchRep_false_of_length isDigitChar 6 6 t.data hlen]; exact Bool.false_ne_true)]

theorem check_ready (code reasonPhrase url text : String) (sc : Nat)
    (hok : raiseForStatusFails sc = false)
    (h1 : containsSubstr "la consegna" (pyLower text) = true) :
    check_permit_status code (.response sc reasonPhrase url text) = (readyResult, []) := by
  simp [check_permit_status, hok, h1]

theorem check_processing (code reasonPhrase url text : String) (sc : Nat)
    (hok : raiseForStatusFails sc = false)
    (h1 : containsSubstr "la consegna" (pyLower text) = false)
    (h2 : containsSubstr "in trattazione" (pyLower text) = true) :
    check_permit_status code (.response sc reasonPhrase url text) = (processingResult, []) := by
  simp [check_permit_status, hok, h1, h2]

theorem check_unknown (code reasonPhrase url text : String) (sc : Nat)
    (hok : raiseForStatusFails sc = false)
    (h1 : containsSubstr "la consegna" (pyLower text) = false)
    (h2 : containsSubstr "in trattazione" (pyLower text) = false) :
    check_permit_status code (.response sc reasonPhrase url text) = (unknownResult, []) := by
  simp [check_permit_status, hok, h1, h2]

theorem check_error_http (code reasonPhrase url text : String) (sc : Nat)
    (hbad : raiseForStatusFails sc = true) :
    check_permit_status code (.response sc reasonPhrase url text) =
      (errorResult, [requestFailedLog code (httpErrorMessage sc reasonPhrase url)]) := by
  simp [check_permit_status, hbad]

theorem containsSubstr_right (a b : String) : containsSubstr b (a ++ b) = true := by
  rw [containsSubstr_iff]
  exact ⟨a.data, [], by simp⟩

theorem containsSubstr_mid4 (a b c d : String) :
    containsSubstr b (a ++ b ++ c ++ d) = true := by
  rw [containsSubstr_iff]
  refine ⟨a.data, c.data ++ d.data, ?_⟩
  simp [List.append_assoc]

theorem handle_message_valid (year : Nat) (fetch : String → FetchOutcome) (raw : String)
    (h : is_permit_code raw = true) :
    handle_message year fetch raw =
      .resolved (normalize_permit_code year (pyStrip raw)) checkingMessage
        (build_result_message (normalize_permit_code year (pyStrip raw))
          (check_permit_status (normalize_permit_code year (pyStrip raw))
            (fetch (normalize_permit_code year (pyStrip raw)))).1) := by
  have h2 : is_permit_code (pyStrip raw) = true := by rw [is_permit_code_strip]; exact h
  simp [handle_message, h2]

/-! ### The claims -/

/-- C3: for every input whose trimmed form matches `^\d{6}$`,
`normalize_permit_code` returns the zero-padded two-digit current year
prepended to the (trimmed) input, and the result has length exactly 8. -/
theorem normalize_six_digit (year : Nat) (s : String)
    (h : matchRep isDigitChar 6 6 (pyStrip s).data = true) :
    normalize_permit_code year s = twoDigitYear year ++ pyStrip s ∧
      (normalize_permit_code year s).length = 8 := by
  obtain ⟨h6a, h6b, hdig⟩ := (matchRep_eq_true_iff _ _ _ _).mp h
  have hupper : pyUpper (pyStrip s) = pyStrip s := pyUpper_of_digits _ hdig
  have heq : normalize_permit_code year s = twoDigitYear year ++ pyStrip s := by
    unfold normalize_permit_code
    rw [hupper, if_pos h]
  refine ⟨heq, ?_⟩
  rw [heq, String.length_append, twoDigitYear_length, length_data]
  omega

/-- Witness for C3 at the concrete input `"123456"`. -/
theorem normalize_six_digit_spot :
    matchRep isDigitChar 6 6 (pyStrip "123456").data = true ∧
      normalize_permit_code 2026 "123456" = twoDigitYear 2026 ++ pyStrip "123456" :=
  ⟨by decide, (normalize_six_digit 2026 "123456" (by decide)).1⟩

/-- C4: for every input matching `^[A-Za-z0-9]{6,20}$` that is not
exactly six digits, `normalize_permit_code` returns the uppercased
input unchanged. -/
theorem normalize_passthrough (year : Nat) (s : String)
    (halnum : matchRep isAlnumChar 6 20 s.data = true)
    (hnotsix : matchRep isDigitChar 6 6 s.data = false) :
    normalize_permit_code year s = pyUpper s := by
  obtain ⟨-, -, hall⟩ := (matchRep_eq_true_iff _ _ _ _).mp halnum
  have hstrip : pyStrip s = s :=
    pyStrip_of_no_space s fun c hc => alnum_not_space c (hall c hc)
  have hsix : matchRep isDigitChar 6 6 (pyUpper (pyStrip s)).data = false := by
    rw [hstrip, pyUpper_data, matchRep_digit_map_toUpper]
    exact hnotsix
  unfold normalize_permit_code
  rw [if_neg (by rw [hsix]; exact Bool.false_ne_true), hstrip]

/-- Witness for C4 at the concrete input `"26bo123456"`. -/
theorem normalize_passthrough_spot :
    normalize_permit_code 2026 "26bo123456" = pyUpper "26bo123456" :=
  normalize_passthrough 2026 "26bo123456" (by decide) (by decide)

/-- C5: `is_permit_code` is true exactly when the trimmed input has
length between 6 and 20 and consists of `[A-Za-z0-9]` characters only
(hence false whenever it is shorter than 6, longer than 20, or has a
non-alphanumeric character). -/
theorem is_permit_code_iff (text : String) :
    is_permit_code text = true ↔
      6 ≤ (pyStrip text).length ∧ (pyStrip text).length ≤ 20 ∧
        ∀ c ∈ (pyStrip text).data, isAlnumChar c = true := by
  rw [length_data]
  exact matchRep_eq_true_iff _ _ _ _

/-- C7: a free-text message that fails the code-shape check is answered
with the format-guidance rejection message and no network call is
issued — the outcome is the same for every possible transport
behaviour `fetch`, which is never consulted. -/
theorem invalid_text_rejected (year : Nat) (fetch : String → FetchOutcome) (raw : String)
    (h : is_permit_code raw = false) :
    handle_message year fetch raw = .rejected rejectionMessage ∧
      networkCalls (handle_message year fetch raw) = 0 := by
  have h2 : is_permit_code (pyStrip raw) = false := by rw [is_permit_code_strip]; exact h
  have hm : handle_message year fetch raw = .rejected rejectionMessage := by
    simp [handle_message, h2]
  exact ⟨hm, by rw [hm]; rfl⟩

/-- Witness for C7 at the concrete input `"hi"`. -/
theorem invalid_text_rejected_spot :
    handle_message 2026 (fun _ => .failure "unreachable") "hi" = .rejected rejectionMessage :=
  (invalid_text_rejected 2026 (fun _ => .failure "unreachable") "hi" (by decide)).1

/-- C8: `build_result_message` is a pure deterministic function of the
pair `(code, result)` — two calls with identical arguments produce
identical display blocks (its Lean type already exhibits the absence
of any state or network dependence). -/
theorem build_result_message_deterministic (c1 c2 : String) (r1 r2 : CheckResult)
    (hc : c1 = c2) (hr : r1 = r2) :
    build_result_message c1 r1 = build_result_message c2 r2 := by
  rw [hc, hr]

/-- Witness for C8 at a concrete argument pair. -/
theorem build_result_message_deterministic_spot :
    build_result_message "26123456" readyResult = build_result_message "26123456" readyResult :=
  build_result_message_deterministic "26123456" "26123456" readyResult readyResult rfl rfl

/-- C9: `normalize_permit_code` is idempotent: the six-digit branch
produces an 8-character all-digit string that is not re-prefixed, and
stripping and uppercasing are idempotent. -/
theorem normalize_idempotent (year : Nat) (s : String) :
    normalize_permit_code year (normalize_permit_code year s) =
      normalize_permit_code year s := by
  by_cases h : matchRep isDigitChar 6 6 (pyUpper (pyStrip s)).data = true
  · have hfirst : normalize_permit_code year s = twoDigitYear year ++ pyUpper (pyStrip s) := by
      unfold normalize_permit_code
      rw [if_pos h]
    obtain ⟨hge, hle, hdig⟩ := (matchRep_eq_true_iff _ _ _ _).mp h
    rw [hfirst]
    apply normalize_fixed_of_digits
    · intro c hc
      rw [String.data_append] at hc
      rcases List.mem_append.mp hc with hc | hc
      · exact twoDigitYear_digits year c hc
      · exact hdig c hc
    · rw [String.data_append, List.length_append]
      have h2 : (twoDigitYear year).data.length = 2 := by
        rw [← length_data]
        exact twoDigitYear_length year
      omega
  · have hfirst : normalize_permit_code year s = pyUpper (pyStrip s) := by
      unfold normalize_permit_code
      rw [if_neg h]
    have hstrip2 : pyStrip (pyUpper (pyStrip s)) = pyUpper (pyStrip s) := by
      rw [pyStrip_pyUpper, pyStrip_pyStrip]
    have hupper2 : pyUpper (pyUpper (pyStrip s)) = pyUpper (pyStrip s) := pyUpper_pyUpper _
    rw [hfirst]
    unfold normalize_permit_code
    rw [if_neg (by rw [hstrip2, hupper2]; exact h), hstrip2, hupper2]

/-- C10: `build_result_message` is total over arbitrary status strings:
for a status outside the four known keys the block is rendered with
the fallback `❓` indicator, and on the four known keys the indicator
is exactly the mapped colour symbol. -/
theorem formatter_fallback (code : String) (r : CheckResult)
    (h1 : r.status ≠ "ready") (h2 : r.status ≠ "processing")
    (h3 : r.status ≠ "unknown") (h4 : r.status ≠ "error") :
    build_result_message code r = renderBlock code r "❓" ∧
      statusDot "ready" = "🟢" ∧ statusDot "processing" = "🟡" ∧
      statusDot "unknown" = "🔴" ∧ statusDot "error" = "⚠️" := by
  refine ⟨?_, by decide, by decide, by decide, by decide⟩
  have e1 : (r.status == "ready") = false := beq_eq_false_iff_ne.mpr h1
  have e2 : (r.status == "processing") = false := beq_eq_false_iff_ne.mpr h2
  have e3 : (r.status == "unknown") = false := beq_eq_false_iff_ne.mpr h3
  have e4 : (r.status == "error") = false := beq_eq_false_iff_ne.mpr h4
  unfold build_result_message
  have hdot : statusDot r.status = "❓" := by
    simp [statusDot, STATUS_COLORS, List.lookup, e1, e2, e3, e4]
  rw [hdot]

/-- Witness for C10 at a concrete unknown status string. -/
theorem formatter_fallback_spot :
    build_result_message "X" ⟨"weird", "T", "D", "E"⟩ =
      renderBlock "X" ⟨"weird", "T", "D", "E"⟩ "❓" :=
  (formatter_fallback "X" ⟨"weird", "T", "D", "E"⟩
    (by decide) (by decide) (by decide) (by decide)).1

/-- C1: on a successful query (no exception, `raise_for_status` passes)
the lower-cased body is classified by ordered first-match-wins
substring matching — `"la consegna"` gives `Ready` regardless of other
tokens, else `"in trattazione"` gives `Processing`, else `Unknown` —
and every possible fetch outcome yields exactly one of the four
verdicts, which carry pairwise distinct status tags. -/
theorem classify_first_match (code reasonPhrase url text : String) (sc : Nat)
    (hok : raiseForStatusFails sc = false) :
    (containsSubstr "la consegna" (pyLower text) = true →
        check_permit_status code (.response sc reasonPhrase url text) = (readyResult, [])) ∧
      (containsSubstr "la consegna" (pyLower text) = false →
        containsSubstr "in trattazione" (pyLower text) = true →
          check_permit_status code (.response sc reasonPhrase url text) = (processingResult, [])) ∧
      (containsSubstr "la consegna" (pyLower text) = false →
        containsSubstr "in trattazione" (pyLower text) = false →
          check_permit_status code (.response sc reasonPhrase url text) = (unknownResult, [])) ∧
      (∀ o : FetchOutcome,
        (check_permit_status code o).1 = readyResult ∨
          (check_permit_status code o).1 = processingResult ∨
          (check_permit_status code o).1 = unknownResult ∨
          (check_permit_status code o).1 = errorResult) ∧
      readyResult.status ≠ processingResult.status ∧
      readyResult.status ≠ unknownResult.status ∧
      readyResult.status ≠ errorResult.status ∧
      processingResult.status ≠ unknownResult.status ∧
      processingResult.status ≠ errorResult.status ∧
      unknownResult.status ≠ errorResult.status := by
  refine ⟨fun h1 => check_ready code reasonPhrase url text sc hok h1,
    fun h1 h2 => check_processing code reasonPhrase url text sc hok h1 h2,
    fun h1 h2 => check_unknown code reasonPhrase url text sc hok h1 h2,
    ?_, by decide, by decide, by decide, by decide, by decide, by decide⟩
  intro o
  cases o with
  | failure reason => right; right; right; rfl
  | response sc2 rp2 url2 t2 =>
    by_cases hb : raiseForStatusFails sc2 = true
    · right; right; right
      rw [check_error_http _ _ _ _ _ hb]
    · have hb' : raiseForStatusFails sc2 = false := Bool.eq_false_iff.mpr hb
      by_cases hc1 : containsSubstr "la consegna" (pyLower t2) = true
      · left
        rw [check_ready _ _ _ _ _ hb' hc1]
      · have hc1' : containsSubstr "la consegna" (pyLower t2) = false :=
          Bool.eq_false_iff.mpr hc1
        by_cases hc2 : containsSubstr "in trattazione" (pyLower t2) = true
        · right; left
          rw [check_processing _ _ _ _ _ hb' hc1' hc2]
        · right; right; left
          rw [check_unknown _ _ _ _ _ hb' hc1' (Bool.eq_false_iff.mpr hc2)]

/-- Witness for C1: a 200 response whose body carries the ready token
(in upper case, exercising the lower-casing) classifies as `Ready`. -/
theorem classify_first_match_spot :
    raiseForStatusFails 200 = false ∧
      check_permit_status "26123456" (.response 200 "OK" "u" "E PREVISTA LA CONSEGNA") =
        (readyResult, []) :=
  ⟨by decide,
    (classify_first_match "26123456" "OK" "u" "E PREVISTA LA CONSEGNA" 200 (by decide)).1
      (by decide)⟩

/-- C6 counterexample: a non-2xx status that is not 4xx/5xx — here
301 — is not treated as a transport failure by the code:
`raise_for_status` only raises for 400–599, so the body is classified
(here to the `unknown` verdict) and no diagnostic log entry is
emitted, refuting the claim as stated. -/
theorem non2xx_not_queryerror :
    ¬(200 ≤ 301 ∧ 301 ≤ 299) ∧
      (check_permit_status "26123456" (.response 301 "Moved Permanently" "u" "")).1 ≠
        errorResult ∧
      (check_permit_status "26123456" (.response 301 "Moved Permanently" "u" "")).2 = [] := by
  refine ⟨by omega, by decide, by decide⟩

/-- C6 (amended): for every raised request exception and for every
4xx/5xx response status, `check_permit_status` returns the QueryError
verdict immediately with no retry (the outcome is a function of the
single fetch) and emits exactly one diagnostic log entry, whose
message contains the permit code and the failure reason; statuses
outside 400–599 do not raise and are classified from the body. -/
theorem transport_failure_queryerror (code reason reasonPhrase url text : String) (sc : Nat)
    (hbad : raiseForStatusFails sc = true) :
    check_permit_status code (.failure reason) =
        (errorResult, [requestFailedLog code reason]) ∧
      check_permit_status code (.response sc reasonPhrase url text) =
        (errorResult, [requestFailedLog code (httpErrorMessage sc reasonPhrase url)]) ∧
      ∀ msg : String,
        containsSubstr code (requestFailedLog code msg).message = true ∧
          containsSubstr msg (requestFailedLog code msg).message = true := by
  refine ⟨rfl, check_error_http code reasonPhrase url text sc hbad, fun msg => ⟨?_, ?_⟩⟩
  · exact containsSubstr_mid4 "Request failed for " code ": " msg
  · exact containsSubstr_right ("Request failed for " ++ code ++ ": ") msg

/-- Witness for C6 (amended) at a concrete timeout failure and a 404. -/
theorem transport_failure_queryerror_spot :
    raiseForStatusFails 404 = true ∧
      check_permit_status "26123456" (.failure "timeout") =
        (errorResult, [requestFailedLog "26123456" "timeout"]) :=
  ⟨by decide,
    (transport_failure_queryerror "26123456" "timeout" "Not Found" "u" "" 404 (by decide)).1⟩

theorem build_result_message_split (code : String) (r : CheckResult) :
    build_result_message code r =
      (sepLine '=' ++ "\n" ++ r.emoji ++ "  <b>" ++ r.title ++ "</b>\n"
          ++ sepLine '=' ++ "\n\n" ++ "📄  <b>Permit Code:</b>  ")
        ++ ("<code>" ++ code ++ "</code>")
        ++ ("\n" ++ statusDot r.status ++ "  <b>Status:</b>  " ++ r.title ++ "\n\n"
          ++ r.description ++ "\n\n" ++ sepLine '─') := by
  apply String.ext
  have h1 : ("📄  <b>Permit Code:</b>  <code>" : String).data =
      ("📄  <b>Permit Code:</b>  " : String).data ++ ("<code>" : String).data := by decide
  have h2 : ("</code>\n" : String).data =
      ("</code>" : String).data ++ ("\n" : String).data := by decide
  simp only [build_result_message, renderBlock, String.data_append, h1, h2,
    List.append_assoc, List.cons_append, List.nil_append]

theorem block_contains_code (code : String) (r : CheckResult) :
    containsSubstr ("<code>" ++ code ++ "</code>") (build_result_message code r) = true := by
  rw [build_result_message_split, containsSubstr_iff]
  refine ⟨(sepLine '=' ++ "\n" ++ r.emoji ++ "  <b>" ++ r.title ++ "</b>\n"
      ++ sepLine '=' ++ "\n\n" ++ "📄  <b>Permit Code:</b>  ").data,
    ("\n" ++ statusDot r.status ++ "  <b>Status:</b>  " ++ r.title ++ "\n\n"
      ++ r.description ++ "\n\n" ++ sepLine '─').data, ?_⟩
  simp [String.data_append, List.append_assoc]

set_option maxRecDepth 100000 in
/-- C2 counterexample: in the year-2026 scenario with raw input
`"123456"` and a body containing `"la consegna"`, the Permit Code line
of the rendered block carries the NORMALIZED code `26123456`, and the
fragment `<code>123456</code>` (the raw form alone) appears nowhere in
the block: `handle_message` passes the normalized code, not the raw
text, to the formatter, so the claim is false as stated. -/
theorem block_echoes_normalized_not_raw :
    handle_message 2026
        (fun _ => .response 200 "OK" "u" "e prevista la consegna del documento") "123456" =
      .resolved "26123456" checkingMessage (build_result_message "26123456" readyResult) ∧
      containsSubstr "<b>Permit Code:</b>  <code>26123456</code>"
        (build_result_message "26123456" readyResult) = true ∧
      containsSubstr "<code>123456</code>"
        (build_result_message "26123456" readyResult) = false := by
  refine ⟨by decide, by decide, by decide⟩

set_option maxRecDepth 100000 in
/-- C2 (amended): in the scenario — raw input `"123456"`, year 2026,
response body containing `"la consegna"` — the router resolves to a
block that contains the green indicator and the normalized permit code
`26123456` in its Permit Code line; in general the formatted block
echoes verbatim the code passed to the formatter, which is the
normalized (not the raw) code. -/
theorem result_block_normalized (sc : Nat) (reasonPhrase url text : String)
    (hok : raiseForStatusFails sc = false)
    (hready : containsSubstr "la consegna" (pyLower text) = true) :
    handle_message 2026 (fun _ => .response sc reasonPhrase url text) "123456" =
        .resolved "26123456" checkingMessage (build_result_message "26123456" readyResult) ∧
      containsSubstr "🟢" (build_result_message "26123456" readyResult) = true ∧
      containsSubstr "<b>Permit Code:</b>  <code>26123456</code>"
        (build_result_message "26123456" readyResult) = true ∧
      ∀ (code : String) (r : CheckResult),
        containsSubstr ("<code>" ++ code ++ "</code>") (build_result_message code r) = true := by
  refine ⟨?_, by decide, by decide, fun code r => block_contains_code code r⟩
  rw [handle_message_valid 2026 _ "123456" (by decide)]
  rw [show pyStrip "123456" = "123456" by decide]
  rw [show normalize_permit_code 2026 "123456" = "26123456" by decide]
  rw [check_ready "26123456" reasonPhrase url text sc hok hready]

/-- Witness for C2 (amended) at a concrete 200 response. -/
theorem result_block_normalized_spot :
    handle_message 2026 (fun _ => .response 200 "OK" "u" "e prevista la consegna") "123456" =
      .resolved "26123456" checkingMessage (build_result_message "26123456" readyResult) :=
  (result_block_normalized 200 "OK" "u" "e prevista la consegna" (by decide) (by decide)).1

end PermitBot
